import Mathlib

/-!
# Verification of the fdc3-service channel/membership subsystem

This development shallowly embeds the two components of the repository that
the specification covers:

* the `ChannelHandler` — the context-channel membership and broadcast-state
  registry (its implementation file is not present in the sources; only its
  unit-test suite is, so the handler is modelled from the specification and
  checked against the behaviour the unit tests pin down), and
* the `ResolverHandler` (`src/provider/controller/ResolverHandler.ts`) —
  the thin façade over the host picker UI, embedded directly from the
  TypeScript source as explicit traces of host-API effects with
  `Except`-modelled promise rejection.
-/

namespace FDC3

/-- An opaque broadcast context payload: a tagged value (`{type: string}`). -/
structure Context where
  type : String
deriving DecidableEq, Repr

/-- Channel kind tag: `system` channels are pre-provisioned, `app` channels
    are created on demand by name. -/
inductive ChannelType where
  | system
  | app
deriving DecidableEq, Repr

/-- Modelled from the spec: a `ContextChannel` registry entry — identity is
    the channel id (string, unique, immutable).  The cached
    last-broadcast-context lives in the handler state's per-id cache (see
    `Model.storedContext`), mirroring mutation of the channel object by
    reference in the TypeScript source. -/
structure ContextChannel where
  id : String
  ctype : ChannelType
deriving DecidableEq, Repr

/-- Modelled from the spec: an `AppWindow` as the channel handler sees it —
    an identity, the single non-null channel association (stored as the
    channel's id), and the `hasChannelEventListener` capability, modelled as
    the set of (channel id, event type) pairs the window listens for. -/
structure AppWindow where
  id : String
  channel : String
  listeners : List (String × String)
deriving DecidableEq, Repr

/-- Modelled from the spec: `hasChannelEventListener(channel, eventType)` —
    whether this window listens for the given event type on the given
    channel. -/
def AppWindow.hasChannelEventListener (w : AppWindow) (channelId eventType : String) : Bool :=
  w.listeners.contains (channelId, eventType)

/-- Modelled from the spec: the state visible to the channel handler — the
    live window set and channel registry owned by the `Model`, plus the
    per-channel-id cached last-broadcast context (the `storedContext` each
    channel object carries in the source). -/
structure Model where
  windows : List AppWindow
  channels : List ContextChannel
  storedContext : String → Option Context

/-- A single `onChannelChanged` notification
    `(window, newChannel, previousChannel)`; the window is identified by its
    id, and the channels by their ids (`none` = null). -/
structure ChannelChange where
  window : String
  newChannel : Option String
  previousChannel : Option String
deriving DecidableEq, Repr

/-- Error identifiers from the client API's `ChannelError` enum. -/
inductive ChannelError where
  | ChannelWithIdDoesNotExist
deriving DecidableEq, Repr

/-- An FDC3 error value: an error identifier plus a human-readable message. -/
structure FDC3Error where
  code : ChannelError
  message : String
deriving DecidableEq, Repr

namespace ChannelHandler

/-- Modelled from the spec: membership of the channel with the given id —
    always recomputed by filtering the live window collection by channel
    reference, never stored separately. -/
def getChannelMembersById (s : Model) (channelId : String) : List AppWindow :=
  s.windows.filter (fun w => w.channel == channelId)

/-- Modelled from the spec: `getChannelMembers(channel)` — all windows
    currently assigned to this channel, in window-registry order. -/
def getChannelMembers (s : Model) (c : ContextChannel) : List AppWindow :=
  getChannelMembersById s c.id

/-- Modelled from the spec: `getSystemChannels()` — all registered channels
    whose kind is `system`, in registry order. -/
def getSystemChannels (s : Model) : List ContextChannel :=
  s.channels.filter (fun c => c.ctype == ChannelType.system)

/-- Modelled from the spec: `getChannelContext(channel)` — pure read of the
    channel's cached last-broadcast context. -/
def getChannelContext (s : Model) (c : ContextChannel) : Option Context :=
  s.storedContext c.id

/-- Modelled from the spec: `getWindowsListeningForEventsOnChannel(channel,
    eventType)` — all windows whose `hasChannelEventListener` holds, not
    filtered by membership. -/
def getWindowsListeningForEventsOnChannel (s : Model) (c : ContextChannel)
    (eventType : String) : List AppWindow :=
  s.windows.filter (fun w => w.hasChannelEventListener c.id eventType)

/-- Modelled from the spec: `getChannelById(id)` — returns the registered
    channel with that id, or fails with a `ChannelWithIdDoesNotExist` error
    carrying the id in its message (message format taken from the unit
    tests: `No channel with channelId: <id>`). -/
def getChannelById (s : Model) (id : String) : Except FDC3Error ContextChannel :=
  match s.channels.find? (fun c => c.id == id) with
  | some c => Except.ok c
  | none => Except.error
      ⟨ChannelError.ChannelWithIdDoesNotExist, "No channel with channelId: " ++ id⟩

/-- Modelled from the spec: `getAppChannelByName(name)` — looks up an
    existing app channel by name; if absent, constructs a new app channel
    with that name, registers it into the model, and returns it. -/
def getAppChannelByName (s : Model) (name : String) : Model × ContextChannel :=
  match s.channels.find? (fun c => c.id == name) with
  | some c => (s, c)
  | none =>
      let c : ContextChannel := ⟨name, ChannelType.app⟩
      ({s with channels := s.channels ++ [c]}, c)

/-- Modelled from the spec: `setLastBroadcastOnChannel(channel, context)` —
    caches the context on the channel only if the channel currently has at
    least one member; otherwise leaves everything untouched. -/
def setLastBroadcastOnChannel (s : Model) (c : ContextChannel) (ctx : Context) : Model :=
  if getChannelMembers s c = [] then s
  else {s with storedContext := fun i => if i == c.id then some ctx else s.storedContext i}

/-- Clear the cached last-broadcast context of the channel with the given
    id (the channel object's `clearStoredContext` in the source). -/
def clearStoredContext (s : Model) (channelId : String) : Model :=
  {s with storedContext := fun i => if i == channelId then none else s.storedContext i}

/-- Modelled from the spec: `joinChannel(window, channel)` — steps 1–5 of
    §4.1: capture previous channel; no-op if unchanged; otherwise reassign
    the window's channel, clear the previous channel's cache if its
    membership is now empty, and emit one
    `(window, newChannel, previousChannel)` notification. -/
def joinChannel (s : Model) (w : AppWindow) (c : ContextChannel) :
    Model × List ChannelChange :=
  let previous := w.channel
  if previous == c.id then (s, [])
  else
    let windows := s.windows.map
      (fun wi => if wi.id == w.id then {wi with channel := c.id} else wi)
    let s' : Model := {s with windows := windows}
    let s'' := if getChannelMembersById s' previous = []
               then clearStoredContext s' previous
               else s'
    (s'', [⟨w.id, some c.id, some previous⟩])

/-- Modelled from the spec: the reactive handler for the Window Registry's
    window-added event — treat as an implicit join and emit
    `(window, window.channel, null)`.  The registry itself owns the window
    list, so the handler changes no model state. -/
def onModelWindowAdded (s : Model) (w : AppWindow) : Model × List ChannelChange :=
  (s, [⟨w.id, some w.channel, none⟩])

/-- Modelled from the spec: the reactive handler for the Window Registry's
    window-removed event — recompute the vacated channel's membership (the
    registry has already dropped the window), clear its cache if empty, and
    emit `(window, null, window.channel)`. -/
def onModelWindowRemoved (s : Model) (w : AppWindow) : Model × List ChannelChange :=
  let s' := if getChannelMembersById s w.channel = []
            then clearStoredContext s w.channel
            else s
  (s', [⟨w.id, none, some w.channel⟩])

end ChannelHandler

/-! ## ResolverHandler (`src/provider/controller/ResolverHandler.ts`)

The handler drives an external picker window over four host APIs
(`window.show`, `window.setAsForeground`, `channel.dispatch('resolve', msg)`,
`window.hide`) plus the one-off `init` sequence (close any stale prior
window, create the resolver window, attach a close-requested listener,
connect the message channel).  Each host call is an awaited promise that can
reject; an environment records each call's outcome as an `Except`, and the
embedding returns the trace of calls made together with the settled result
of the method's own promise. -/

/-- An intent to be resolved (opaque here beyond identity). -/
structure Intent where
  type : String
deriving DecidableEq, Repr

/-- A candidate application presented by the resolver. -/
structure Application where
  appId : String
deriving DecidableEq, Repr

/-- The `ResolverArgs` payload `{intent, applications}` dispatched to the
    picker. -/
structure ResolverArgs where
  intent : Intent
  applications : List Application
deriving DecidableEq, Repr

/-- The `ResolverResult` payload `{app}` the picker responds with. -/
structure ResolverResult where
  app : Application
deriving DecidableEq, Repr

/-- Outcomes of the awaited host-API calls `handleIntent` makes, in source
    order: the promise each returns either fulfils or rejects with an error
    message. -/
structure PickerEnv where
  showResult : Except String Unit
  setAsForegroundResult : Except String Unit
  dispatchResult : Except String ResolverResult
  hideResult : Except String Unit

/-- One observable effect of `handleIntent`: a host-API call or a
    `console.error` log. -/
inductive PickerAction where
  | show
  | setAsForeground
  | dispatchResolve (msg : ResolverArgs)
  | logError (e : String)
  | hide
deriving DecidableEq, Repr

/-- Outcomes of the awaited host-API calls `init` makes, in source order:
    closing any stale prior resolver window, creating the fresh window, and
    connecting the message channel. -/
structure InitEnv where
  closeResult : Except String Unit
  createResult : Except String Unit
  connectResult : Except String Unit

/-- One observable effect of `init`. -/
inductive InitAction where
  | closeExisting
  | createWindow
  | addCloseRequestedListener
  | connectChannel
deriving DecidableEq, Repr

namespace ResolverHandler

/-- `promise.catch(handler)` where the handler returns no value: a rejection
    is swallowed and the settled value is `undefined` (`none`); a
    fulfilment passes its value through as `some`.  The error message is
    reported so the caller can log it. -/
def caughtDispatch (r : Except String ResolverResult) :
    Option ResolverResult × List PickerAction :=
  match r with
  | Except.ok sel => (some sel, [])
  | Except.error e => (none, [PickerAction.logError e])

/-- `promise.catch(() => {})`: a rejection is swallowed and discarded, a
    fulfilment passes through — either way the awaited result is success. -/
def caughtClose (r : Except String Unit) : Except String Unit :=
  match r with
  | Except.ok _ => Except.ok ()
  | Except.error _ => Except.ok ()

/-- `ResolverHandler.handleIntent(intent, applications)`, embedded from the
    source: `await show(); await setAsForeground();
    selection = await dispatch('resolve', msg).catch(console.error);
    await hide(); return selection`.  Returns the trace of host calls made
    and the settled result of the returned promise: `Except.error` when the
    promise rejects, otherwise the (possibly `undefined`) selection. -/
def handleIntent (env : PickerEnv) (intent : Intent) (applications : List Application) :
    List PickerAction × Except String (Option ResolverResult) :=
  let msg : ResolverArgs := ⟨intent, applications⟩
  match env.showResult with
  | Except.error e => ([PickerAction.show], Except.error e)
  | Except.ok _ =>
    match env.setAsForegroundResult with
    | Except.error e =>
        ([PickerAction.show, PickerAction.setAsForeground], Except.error e)
    | Except.ok _ =>
      let (selection, logs) := caughtDispatch env.dispatchResult
      let trace := [PickerAction.show, PickerAction.setAsForeground,
                    PickerAction.dispatchResolve msg] ++ logs ++ [PickerAction.hide]
      match env.hideResult with
      | Except.error e => (trace, Except.error e)
      | Except.ok _ => (trace, Except.ok selection)

/-- `ResolverHandler.init()`, embedded from the source:
    `await wrapSync(RESOLVER_IDENTITY).close(true).catch(() => {});
    this._window = await fin.Window.create(options);
    this._window.addListener('close-requested', () => false);
    this._channel = await connect('resolver')`. -/
def init (env : InitEnv) : List InitAction × Except String Unit :=
  match caughtClose env.closeResult with
  | Except.error e => ([InitAction.closeExisting], Except.error e)
  | Except.ok _ =>
    match env.createResult with
    | Except.error e =>
        ([InitAction.closeExisting, InitAction.createWindow], Except.error e)
    | Except.ok _ =>
      match env.connectResult with
      | Except.error e =>
          ([InitAction.closeExisting, InitAction.createWindow,
            InitAction.addCloseRequestedListener, InitAction.connectChannel],
           Except.error e)
      | Except.ok _ =>
          ([InitAction.closeExisting, InitAction.createWindow,
            InitAction.addCloseRequestedListener, InitAction.connectChannel],
           Except.ok ())

end ResolverHandler

/-! ## Concrete fixtures

Small concrete states used by the witness theorems, mirroring the fixtures
of the unit-test suite (a blue system channel holding a cached context, a
red system channel, and one or two member windows). -/

/-- A test context value. -/
def ctxT : Context := ⟨"test-contact"⟩

/-- A fresh context value used when overwriting the cache. -/
def ctxNew : Context := ⟨"test-instrument"⟩

/-- The blue system channel. -/
def chBlue : ContextChannel := ⟨"blue", ChannelType.system⟩

/-- The red system channel. -/
def chRed : ContextChannel := ⟨"red", ChannelType.system⟩

/-- A window on the blue channel with no event listeners. -/
def wA : AppWindow := ⟨"w-a", "blue", []⟩

/-- A second window on the blue channel, listening for window-added events
    on blue. -/
def wB : AppWindow := ⟨"w-b", "blue", [("blue", "window-added")]⟩

/-- A state with both windows on blue and a cached context on blue. -/
def sTwo : Model :=
  ⟨[wA, wB], [chBlue, chRed], fun i => if i == "blue" then some ctxT else none⟩

/-- A state where `wA` is blue's only member and blue has a cached
    context. -/
def sOne : Model :=
  ⟨[wA], [chBlue, chRed], fun i => if i == "blue" then some ctxT else none⟩

/-- A state with no windows at all, blue still holding a cached context (as
    the model looks right after its last member was removed). -/
def sNone : Model :=
  ⟨[], [chBlue, chRed], fun i => if i == "blue" then some ctxT else none⟩

/-- The intent used by the resolver fixtures. -/
def intentEx : Intent := ⟨"ViewChart"⟩

/-- The candidate application list used by the resolver fixtures. -/
def appsEx : List Application := [⟨"app-1"⟩, ⟨"app-2"⟩]

/-- A picker environment whose `window.show()` call rejects. -/
def envShowFails : PickerEnv :=
  ⟨Except.error "show failed", Except.ok (), Except.ok ⟨⟨"app-1"⟩⟩, Except.ok ()⟩

/-- A picker environment where only the resolve dispatch rejects. -/
def envDispatchFails : PickerEnv :=
  ⟨Except.ok (), Except.ok (), Except.error "transport failure", Except.ok ()⟩

/-- An init environment whose stale-window close rejects (e.g. no prior
    window existed) while creation and connection succeed. -/
def envCloseFails : InitEnv :=
  ⟨Except.error "no prior window", Except.ok (), Except.ok ()⟩

/-! ## Theorems for the claims -/

/-- C2: `joinChannel(w, c)` where `w.channel == c` beforehand is a true
    no-op: no notification fires, `w.channel` is unchanged and no channel
    state (including any cached broadcast context) changes. -/
theorem joinChannel_same_channel_noop (s : Model) (w : AppWindow) (c : ContextChannel)
    (h : w.channel = c.id) :
    ChannelHandler.joinChannel s w c = (s, []) := by
  simp [ChannelHandler.joinChannel, h]

/-- Witness for C2 at a concrete state: `wA` is already on blue, and the
    join returns the state unchanged with no notifications. -/
theorem joinChannel_same_channel_noop_witness :
    ChannelHandler.joinChannel sOne wA chBlue = (sOne, []) :=
  joinChannel_same_channel_noop sOne wA chBlue rfl

/-- C4: `setLastBroadcastOnChannel(c, ctx)` caches `ctx` on `c` when `c`
    has at least one member, and is a true no-op (the whole state,
    including the cache, is untouched) when `c` has no members. -/
theorem setLastBroadcastOnChannel_spec (s : Model) (c : ContextChannel) (ctx : Context) :
    (ChannelHandler.getChannelMembers s c ≠ [] →
      (ChannelHandler.setLastBroadcastOnChannel s c ctx).storedContext c.id = some ctx)
    ∧ (ChannelHandler.getChannelMembers s c = [] →
      ChannelHandler.setLastBroadcastOnChannel s c ctx = s) := by
  constructor
  · intro h
    simp [ChannelHandler.setLastBroadcastOnChannel, h]
  · intro h
    simp [ChannelHandler.setLastBroadcastOnChannel, h]

/-- Witness for C4 at a concrete state: blue has a member in `sOne`, so the
    cache is set; in the memberless `sNone` the state is untouched. -/
theorem setLastBroadcastOnChannel_spec_witness :
    (ChannelHandler.setLastBroadcastOnChannel sOne chBlue ctxNew).storedContext chBlue.id
        = some ctxNew
    ∧ ChannelHandler.setLastBroadcastOnChannel sNone chBlue ctxNew = sNone :=
  ⟨(setLastBroadcastOnChannel_spec sOne chBlue ctxNew).1 (by decide),
   (setLastBroadcastOnChannel_spec sNone chBlue ctxNew).2 (by decide)⟩

/-- C5: `getChannelById(id)` fails with a `ChannelWithIdDoesNotExist` error
    whose message references `id` when no registered channel has that id
    (never a null return), and returns the registered channel otherwise. -/
theorem getChannelById_spec (s : Model) (id : String) :
    ((∀ c ∈ s.channels, c.id ≠ id) →
      ChannelHandler.getChannelById s id = Except.error
        ⟨ChannelError.ChannelWithIdDoesNotExist, "No channel with channelId: " ++ id⟩)
    ∧ (∀ c : ContextChannel, s.channels.find? (fun c => c.id == id) = some c →
        ChannelHandler.getChannelById s id = Except.ok c) := by
  constructor
  · intro h
    have hnone : s.channels.find? (fun c => c.id == id) = none := by
      rw [List.find?_eq_none]
      intro c hc
      simpa using h c hc
    simp [ChannelHandler.getChannelById, hnone]
  · intro c hc
    simp [ChannelHandler.getChannelById, hc]

/-- Witness for C5 at a concrete state: no channel has id `green`, the call
    errors with the message naming `green`; looking up `blue` returns the
    registered blue channel. -/
theorem getChannelById_spec_witness :
    ChannelHandler.getChannelById sOne "green" = Except.error
      ⟨ChannelError.ChannelWithIdDoesNotExist, "No channel with channelId: green"⟩
    ∧ ChannelHandler.getChannelById sOne "blue" = Except.ok chBlue :=
  ⟨(getChannelById_spec sOne "green").1 (by decide),
   (getChannelById_spec sOne "blue").2 chBlue (by decide)⟩

/-- C7: `getWindowsListeningForEventsOnChannel(c, e)` returns exactly the
    windows whose `hasChannelEventListener(c, e)` holds, with no filtering
    by channel membership: inclusion is equivalent to being a live window
    satisfying the predicate, irrespective of the window's channel. -/
theorem getWindowsListeningForEventsOnChannel_spec (s : Model) (c : ContextChannel)
    (eventType : String) (w : AppWindow) :
    w ∈ ChannelHandler.getWindowsListeningForEventsOnChannel s c eventType ↔
      w ∈ s.windows ∧ w.hasChannelEventListener c.id eventType = true :=
  List.mem_filter

/-- C3: a window-added event fires exactly the one notification
    `(w, w.channel, null)` (and changes no handler state); a window-removed
    event fires exactly the one notification `(w, null, w.channel)`, clears
    the vacated channel's cached context when its membership is now empty,
    and leaves the whole state (hence the cache) unchanged when another
    window remains on that channel. -/
theorem windowLifecycle_notifications (s : Model) (w : AppWindow) :
    ChannelHandler.onModelWindowAdded s w = (s, [⟨w.id, some w.channel, none⟩])
    ∧ (ChannelHandler.onModelWindowRemoved s w).2 = [⟨w.id, none, some w.channel⟩]
    ∧ (ChannelHandler.getChannelMembersById s w.channel = [] →
        (ChannelHandler.onModelWindowRemoved s w).1.storedContext w.channel = none)
    ∧ (ChannelHandler.getChannelMembersById s w.channel ≠ [] →
        (ChannelHandler.onModelWindowRemoved s w).1 = s) := by
  refine ⟨rfl, ?_, ?_, ?_⟩
  · simp [ChannelHandler.onModelWindowRemoved]
  · intro h
    simp [ChannelHandler.onModelWindowRemoved, ChannelHandler.clearStoredContext, h]
  · intro h
    simp [ChannelHandler.onModelWindowRemoved, h]

/-- Witness for C3 at concrete states: removing `wA` when blue is left
    memberless clears blue's cache; removing `wA` while `wB` remains on
    blue leaves the state unchanged; the emitted notifications are as
    stated. -/
theorem windowLifecycle_notifications_witness :
    (ChannelHandler.onModelWindowAdded sOne wB).2 = [⟨"w-b", some "blue", none⟩]
    ∧ (ChannelHandler.onModelWindowRemoved sNone wA).2 = [⟨"w-a", none, some "blue"⟩]
    ∧ (ChannelHandler.onModelWindowRemoved sNone wA).1.storedContext wA.channel = none
    ∧ (ChannelHandler.onModelWindowRemoved sOne wA).1 = sOne := by
  refine ⟨?_, ?_, ?_, ?_⟩
  · exact congrArg Prod.snd (windowLifecycle_notifications sOne wB).1
  · exact (windowLifecycle_notifications sNone wA).2.1
  · exact (windowLifecycle_notifications sNone wA).2.2.1 (by decide)
  · exact (windowLifecycle_notifications sOne wA).2.2.2 (by decide)

/-- C6: `getAppChannelByName` is idempotent by name — a second call with
    the same name returns the identical channel and performs no
    registration (the registry state after the second call equals the state
    after the first). -/
theorem getAppChannelByName_idempotent (s : Model) (name : String) :
    (ChannelHandler.getAppChannelByName
        (ChannelHandler.getAppChannelByName s name).1 name).2
      = (ChannelHandler.getAppChannelByName s name).2
    ∧ (ChannelHandler.getAppChannelByName
        (ChannelHandler.getAppChannelByName s name).1 name).1
      = (ChannelHandler.getAppChannelByName s name).1 := by
  cases h : s.channels.find? (fun c => c.id == name) with
  | some c =>
      constructor <;> simp [ChannelHandler.getAppChannelByName, h]
  | none =>
      have h2 : (s.channels ++ [(⟨name, ChannelType.app⟩ : ContextChannel)]).find?
          (fun c => c.id == name) = some ⟨name, ChannelType.app⟩ := by
        rw [List.find?_append, h]
        simp
      constructor <;> simp [ChannelHandler.getAppChannelByName, h, h2]

/-- C1: `joinChannel(w, c2)` with `w.channel == c1 ≠ c2` fires exactly the
    one notification `(w, c2, c1)` and reassigns `w` to `c2`; if `w` was
    `c1`'s only member, `c1`'s cached broadcast context becomes null, and if
    another window remains on `c1`, `c1`'s cached context is unchanged. -/
theorem joinChannel_change_spec (s : Model) (w : AppWindow) (c1 c2 : ContextChannel)
    (hprev : w.channel = c1.id) (hne : c1.id ≠ c2.id) :
    (ChannelHandler.joinChannel s w c2).2 = [⟨w.id, some c2.id, some c1.id⟩]
    ∧ (∀ wi ∈ (ChannelHandler.joinChannel s w c2).1.windows,
        wi.id = w.id → wi.channel = c2.id)
    ∧ (ChannelHandler.getChannelMembers s c1 = [w] →
        (ChannelHandler.joinChannel s w c2).1.storedContext c1.id = none)
    ∧ ((∃ w' ∈ s.windows, w'.id ≠ w.id ∧ w'.channel = c1.id) →
        (ChannelHandler.joinChannel s w c2).1.storedContext c1.id = s.storedContext c1.id) := by
  refine ⟨?_, ?_, ?_, ?_⟩
  · simp [ChannelHandler.joinChannel, hprev, hne]
  · intro wi hmem hid
    have hw : (ChannelHandler.joinChannel s w c2).1.windows =
        s.windows.map (fun wi => if wi.id == w.id then {wi with channel := c2.id} else wi) := by
      simp only [ChannelHandler.joinChannel, hprev, beq_iff_eq, if_neg hne]
      split <;> rfl
    rw [hw, List.mem_map] at hmem
    obtain ⟨x, hx, rfl⟩ := hmem
    by_cases h : x.id = w.id
    · simp [h]
    · rw [if_neg (by simp [h])] at hid
      exact absurd hid h
  · intro hmem1
    have honly : ∀ x ∈ s.windows, x.channel = c1.id → x.id = w.id := by
      intro x hx hch
      have hxw : x ∈ ChannelHandler.getChannelMembers s c1 := by
        rw [ChannelHandler.getChannelMembers, ChannelHandler.getChannelMembersById,
          List.mem_filter]
        exact ⟨hx, by simp [hch]⟩
      rw [hmem1, List.mem_singleton] at hxw
      rw [hxw]
    have hcond : ∀ a ∈ s.windows,
        ¬((if a.id = w.id then ({a with channel := c2.id} : AppWindow) else a).channel
            = c1.id) := by
      intro a ha
      by_cases h : a.id = w.id
      · simp only [h, if_pos rfl]
        exact fun hc => hne hc.symm
      · simp only [h, if_false]
        intro hch
        exact h (honly a ha hch)
    simp [ChannelHandler.joinChannel, ChannelHandler.getChannelMembersById,
      ChannelHandler.clearStoredContext, hprev, hne]
    rw [if_pos hcond]
    simp
  · rintro ⟨w', hw', hid, hch⟩
    have hcond : ¬(∀ a ∈ s.windows,
        ¬((if a.id = w.id then ({a with channel := c2.id} : AppWindow) else a).channel
            = c1.id)) := by
      intro hall
      exact hall w' hw' (by simp [hid, hch])
    simp [ChannelHandler.joinChannel, ChannelHandler.getChannelMembersById,
      ChannelHandler.clearStoredContext, hprev, hne]
    rw [if_neg hcond]

/-- Witness for C1 at concrete states: moving `wA` from blue to red emits
    exactly `(w-a, red, blue)` in both fixtures; when `wA` was blue's only
    member blue's cache is cleared, and with `wB` remaining on blue the
    cache still holds the old context. -/
theorem joinChannel_change_spec_witness :
    (ChannelHandler.joinChannel sOne wA chRed).2 = [⟨"w-a", some "red", some "blue"⟩]
    ∧ (ChannelHandler.joinChannel sOne wA chRed).1.storedContext "blue" = none
    ∧ (ChannelHandler.joinChannel sTwo wA chRed).1.storedContext "blue" = some ctxT := by
  have h1 := joinChannel_change_spec sOne wA chBlue chRed rfl (by decide)
  have h2 := joinChannel_change_spec sTwo wA chBlue chRed rfl (by decide)
  exact ⟨h1.1, h1.2.2.1 (by decide),
    (h2.2.2.2 ⟨wB, by decide, by decide, rfl⟩).trans (by decide)⟩

/-- C8 counterexample: a display failure — the picker window's `show()`
    call rejecting — propagates out of `handleIntent` as a rejection of the
    returned promise, rather than being caught, logged and turned into a
    degraded settled outcome. -/
theorem handleIntent_displayFailure_propagates :
    envShowFails.showResult = Except.error "show failed"
    ∧ (ResolverHandler.handleIntent envShowFails intentEx appsEx).2
        = Except.error "show failed" :=
  ⟨rfl, rfl⟩

/-- C8 (amended): only a failure of the resolve dispatch is caught and
    logged, and does not propagate to the caller; provided the `show`,
    `setAsForeground` and `hide` calls themselves succeed, the call settles
    successfully with an undefined (empty) selection, having hidden the
    picker after logging the error and before returning. -/
theorem handleIntent_dispatchFailure_swallowed (env : PickerEnv) (intent : Intent)
    (apps : List Application) (e : String)
    (hs : env.showResult = Except.ok ())
    (hf : env.setAsForegroundResult = Except.ok ())
    (hd : env.dispatchResult = Except.error e)
    (hh : env.hideResult = Except.ok ()) :
    ResolverHandler.handleIntent env intent apps =
      ([PickerAction.show, PickerAction.setAsForeground,
        PickerAction.dispatchResolve ⟨intent, apps⟩, PickerAction.logError e,
        PickerAction.hide],
       Except.ok none) := by
  simp [ResolverHandler.handleIntent, ResolverHandler.caughtDispatch, hs, hf, hd, hh]

/-- Witness for the amended C8 at a concrete environment: the dispatch
    rejects with a transport failure; the error is logged, the picker is
    hidden, and the promise fulfils with no selection. -/
theorem handleIntent_dispatchFailure_swallowed_witness :
    ResolverHandler.handleIntent envDispatchFails intentEx appsEx =
      ([PickerAction.show, PickerAction.setAsForeground,
        PickerAction.dispatchResolve ⟨intentEx, appsEx⟩,
        PickerAction.logError "transport failure", PickerAction.hide],
       Except.ok none) :=
  handleIntent_dispatchFailure_swallowed envDispatchFails intentEx appsEx
    "transport failure" rfl rfl rfl rfl

/-- C9: only the resolve dispatch is error-guarded in `handleIntent`.  A
    rejection of `show()` or `setAsForeground()` propagates to the caller
    with no resolve request dispatched and no subsequent hide (the traces
    stop before those calls), and a rejection of `hide()` propagates as a
    rejection of the returned promise. -/
theorem handleIntent_unguarded_steps (env : PickerEnv) (intent : Intent)
    (apps : List Application) (e : String) :
    (env.showResult = Except.error e →
      ResolverHandler.handleIntent env intent apps
        = ([PickerAction.show], Except.error e))
    ∧ (env.showResult = Except.ok () → env.setAsForegroundResult = Except.error e →
      ResolverHandler.handleIntent env intent apps
        = ([PickerAction.show, PickerAction.setAsForeground], Except.error e))
    ∧ (env.showResult = Except.ok () → env.setAsForegroundResult = Except.ok () →
       env.hideResult = Except.error e →
      (ResolverHandler.handleIntent env intent apps).2 = Except.error e) := by
  refine ⟨?_, ?_, ?_⟩
  · intro hs
    simp [ResolverHandler.handleIntent, hs]
  · intro hs hf
    simp [ResolverHandler.handleIntent, hs, hf]
  · intro hs hf hh
    cases hd : env.dispatchResult <;>
      simp [ResolverHandler.handleIntent, ResolverHandler.caughtDispatch, hs, hf, hd, hh]

/-- Witness for C9 at a concrete environment: `show()` rejects, the
    returned promise rejects with the same error, and the trace contains
    neither a resolve dispatch nor a hide. -/
theorem handleIntent_unguarded_steps_witness :
    ResolverHandler.handleIntent envShowFails intentEx appsEx
      = ([PickerAction.show], Except.error "show failed") :=
  (handleIntent_unguarded_steps envShowFails intentEx appsEx "show failed").1 rfl

/-- C10: `init` swallows any failure from closing a stale prior resolver
    window — its outcome and trace are entirely independent of the close
    call's result — and when creation and connection succeed it performs
    the full close/create/listen/connect sequence successfully. -/
theorem init_ignores_close_failure (env : InitEnv) (r : Except String Unit) :
    ResolverHandler.init {env with closeResult := r} = ResolverHandler.init env
    ∧ (env.createResult = Except.ok () → env.connectResult = Except.ok () →
        ResolverHandler.init env =
          ([InitAction.closeExisting, InitAction.createWindow,
            InitAction.addCloseRequestedListener, InitAction.connectChannel],
           Except.ok ())) := by
  obtain ⟨cl, cr, cn⟩ := env
  constructor
  · cases r <;> cases cl <;> rfl
  · intro h1 h2
    cases cl <;>
      simp_all [ResolverHandler.init, ResolverHandler.caughtClose]

/-- Witness for C10 at a concrete environment: the stale-window close
    rejects, yet `init` still creates the window, attaches the listener,
    connects the channel and completes successfully. -/
theorem init_ignores_close_failure_witness :
    ResolverHandler.init envCloseFails =
      ([InitAction.closeExisting, InitAction.createWindow,
        InitAction.addCloseRequestedListener, InitAction.connectChannel],
       Except.ok ()) :=
  (init_ignores_close_failure envCloseFails (Except.error "no prior window")).2 rfl rfl

end FDC3
